import Mathlib

/-
Shallow embedding of the ink! ERC20 contract in src/lib.rs.

Balances and the total supply are `u128` in the source; we model them as
`Nat` and make the wrapping of unchecked `u128` arithmetic explicit with
`% 2 ^ 128` (`wadd`, `wsub`).  Guarded subtractions (`from_balance - amount`
after `assert!(from_balance >= amount)`) cannot underflow and are modelled
by plain truncated subtraction under the guard.

An ink! `assert!` failure traps and reverts the whole message call: neither
storage writes nor emitted events survive.  Fallible private helpers are
therefore modelled as `Except Err`-valued functions, and `runTransfer`,
`runMint`, `runBurn` wrap the messages with the host's revert semantics:
on error the state and the event log are returned unchanged.

The caller, implicit via `self.env().caller()` in the source, is passed
explicitly as the first argument of every message.
-/

namespace Erc20Spec

/-- The `u128` modulus: unchecked additions and subtractions wrap modulo this. -/
def U128MOD : Nat := 2 ^ 128

abbrev AccountId := Nat
abbrev Balance := Nat

/-- Wrapping `u128` addition (Rust `a + b` on `u128` without overflow checks). -/
def wadd (a b : Balance) : Balance := (a + b) % U128MOD

/-- Wrapping `u128` subtraction, for operands below `U128MOD`. -/
def wsub (a b : Balance) : Balance := (a + U128MOD - b) % U128MOD

/-- The `Transferred` event: `from = none` denotes a mint, `to = none` a burn. -/
structure Transferred where
  from' : Option AccountId
  to' : Option AccountId
  value : Balance
deriving DecidableEq, Repr

/-- The contract's `Mapping<AccountId, Balance>`: a total function where an
absent key reads as `0` (the source always reads with `.unwrap_or(0)`). -/
def Mapping : Type := AccountId → Balance

/-- The empty mapping every key of which reads as `0`. -/
def Mapping.empty : Mapping := fun _ => 0

/-- `self._balances.get(a).unwrap_or(0)`. -/
def Mapping.get (m : Mapping) (account : AccountId) : Balance := m account

/-- `self._balances.insert(account, &value)`. -/
def Mapping.insert (m : Mapping) (account : AccountId) (value : Balance) : Mapping :=
  fun a => if a = account then value else m a

/-- The `Erc20` storage struct. -/
structure Erc20 where
  _owner : AccountId
  _balances : Mapping
  _total_supply : Balance
  _name : String
  _symbol : String

/-- The error taxonomy of the two `assert!` sites. -/
inductive Err where
  | InsufficientBalance
  | NotAuthorized
deriving DecidableEq, Repr

/-- Constructor `new(total_supply, name, symbol)`: zero-initialized storage,
then the whole supply is credited to the creating caller and one mint-style
event is emitted. -/
def Erc20.new (caller : AccountId) (total_supply : Balance) (name symbol : String) :
    Erc20 × List Transferred :=
  let owner := caller
  let contract : Erc20 :=
    { _owner := owner
      _balances := Mapping.insert Mapping.empty owner total_supply
      _total_supply := total_supply
      _name := name
      _symbol := symbol }
  (contract, [⟨none, some owner, total_supply⟩])

/-- Message `name()`. -/
def Erc20.name (s : Erc20) : String := s._name

/-- Message `symbol()`. -/
def Erc20.symbol (s : Erc20) : String := s._symbol

/-- Message `total_supply()`. -/
def Erc20.total_supply (s : Erc20) : Balance := s._total_supply

/-- Message `balance_of(account)`. -/
def Erc20.balance_of (s : Erc20) (account : AccountId) : Balance :=
  Mapping.get s._balances account

/-- Private `_transfer(from, to, amount)`.  Both balances are read before the
guard; the debit is inserted first, then the credit computed from the stale
`to_balance` read — faithful to the source line order. -/
def Erc20._transfer (s : Erc20) (from' to' : AccountId) (amount : Balance) :
    Except Err (Erc20 × Transferred) :=
  let from_balance := Mapping.get s._balances from'
  let to_balance := Mapping.get s._balances to'
  if amount ≤ from_balance then
    let new_from_balance : Balance := from_balance - amount
    let new_to_balance : Balance := wadd to_balance amount
    let balances := Mapping.insert (Mapping.insert s._balances from' new_from_balance)
      to' new_to_balance
    Except.ok ({ s with _balances := balances }, ⟨some from', some to', amount⟩)
  else
    Except.error Err.InsufficientBalance

/-- Private `_mint(account, amount)`: wraps on `u128` overflow, no guard. -/
def Erc20._mint (s : Erc20) (account : AccountId) (amount : Balance) :
    Erc20 × Transferred :=
  let s1 := { s with _total_supply := wadd s._total_supply amount }
  let account_balance := Mapping.get s1._balances account
  let s2 := { s1 with
    _balances := Mapping.insert s1._balances account (wadd account_balance amount) }
  (s2, ⟨none, some account, amount⟩)

/-- Private `_burn(account, amount)`: guarded on the account balance only;
the supply decrement `total_supply -= amount` is unguarded and wraps. -/
def Erc20._burn (s : Erc20) (account : AccountId) (amount : Balance) :
    Except Err (Erc20 × Transferred) :=
  let balance := Mapping.get s._balances account
  if amount ≤ balance then
    let s1 := { s with _total_supply := wsub s._total_supply amount }
    let s2 := { s1 with _balances := Mapping.insert s1._balances account (balance - amount) }
    Except.ok (s2, ⟨some account, none, amount⟩)
  else
    Except.error Err.InsufficientBalance

/-- Private `only_allowed_caller()`. -/
def Erc20.only_allowed_caller (s : Erc20) (caller : AccountId) : Except Err Unit :=
  if s._owner = caller then Except.ok () else Except.error Err.NotAuthorized

/-- Message `transfer(to, amount)`; the caller is explicit.  Returns the new
state, the emitted events and the `bool` result on success. -/
def Erc20.transfer (s : Erc20) (caller to' : AccountId) (amount : Balance) :
    Except Err (Erc20 × List Transferred × Bool) :=
  match s._transfer caller to' amount with
  | Except.ok (s', ev) => Except.ok (s', [ev], true)
  | Except.error e => Except.error e

/-- Message `mint(amount)`: authorization check, then `_mint` on the caller. -/
def Erc20.mint (s : Erc20) (caller : AccountId) (amount : Balance) :
    Except Err (Erc20 × List Transferred × Bool) :=
  match s.only_allowed_caller caller with
  | Except.ok _ =>
      match s._mint caller amount with
      | (s', ev) => Except.ok (s', [ev], true)
  | Except.error e => Except.error e

/-- Message `burn(amount)`: authorization check, then `_burn` on the caller. -/
def Erc20.burn (s : Erc20) (caller : AccountId) (amount : Balance) :
    Except Err (Erc20 × List Transferred × Bool) :=
  match s.only_allowed_caller caller with
  | Except.ok _ =>
      match s._burn caller amount with
      | Except.ok (s', ev) => Except.ok (s', [ev], true)
      | Except.error e => Except.error e
  | Except.error e => Except.error e

/-- Host semantics of a `transfer` call: a trap reverts state and events. -/
def runTransfer (s : Erc20) (log : List Transferred) (caller to' : AccountId)
    (amount : Balance) : Erc20 × List Transferred :=
  match s.transfer caller to' amount with
  | Except.ok (s', evs, _) => (s', log ++ evs)
  | Except.error _ => (s, log)

/-- Host semantics of a `mint` call: a trap reverts state and events. -/
def runMint (s : Erc20) (log : List Transferred) (caller : AccountId)
    (amount : Balance) : Erc20 × List Transferred :=
  match s.mint caller amount with
  | Except.ok (s', evs, _) => (s', log ++ evs)
  | Except.error _ => (s, log)

/-- Host semantics of a `burn` call: a trap reverts state and events. -/
def runBurn (s : Erc20) (log : List Transferred) (caller : AccountId)
    (amount : Balance) : Erc20 × List Transferred :=
  match s.burn caller amount with
  | Except.ok (s', evs, _) => (s', log ++ evs)
  | Except.error _ => (s, log)

/-- The conservation invariant: some finite set of accounts carries all the
nonzero balances, and the stored `total_supply` equals their sum. -/
def Erc20.supplyInvariant (s : Erc20) : Prop :=
  ∃ dom : Finset AccountId,
    (∀ a, a ∉ dom → Mapping.get s._balances a = 0) ∧
    s._total_supply = dom.sum (fun a => Mapping.get s._balances a)

/-- State after `new(1, "Token", "TOK")` called by account `0`. -/
def cState : Erc20 := (Erc20.new 0 1 "Token" "TOK").1

/-- A state whose stored supply is below the owner's balance (conservation
invariant violated; reachable from `new(1,·,·)` by one self-transfer). -/
def badState : Erc20 :=
  { _owner := 0
    _balances := Mapping.insert Mapping.empty 0 5
    _total_supply := 0
    _name := "T"
    _symbol := "T" }

/-- A state at the top of the `u128` range. -/
def maxState : Erc20 :=
  { _owner := 0
    _balances := Mapping.insert Mapping.empty 0 (U128MOD - 1)
    _total_supply := U128MOD - 1
    _name := "T"
    _symbol := "T" }

/-- A small well-formed state: owner `0` holds the whole supply `5`. -/
def gState : Erc20 :=
  { _owner := 0
    _balances := Mapping.insert Mapping.empty 0 5
    _total_supply := 5
    _name := "T"
    _symbol := "T" }

/-- A state where the non-owner account `1` holds the whole supply `4`. -/
def hState : Erc20 :=
  { _owner := 0
    _balances := Mapping.insert Mapping.empty 1 4
    _total_supply := 4
    _name := "T"
    _symbol := "T" }

lemma Mapping.get_insert (m : Mapping) (b : AccountId) (v : Balance) (a : AccountId) :
    Mapping.get (Mapping.insert m b v) a = if a = b then v else Mapping.get m a := rfl

lemma wadd_eq (a b : Nat) (h : a + b < U128MOD) : wadd a b = a + b :=
  Nat.mod_eq_of_lt h

lemma wsub_eq (a b : Nat) (hba : b ≤ a) (ha : a < U128MOD) : wsub a b = a - b := by
  unfold wsub
  have h1 : a + U128MOD - b = a - b + U128MOD := by omega
  rw [h1, Nat.add_mod_right]
  exact Nat.mod_eq_of_lt (lt_of_le_of_lt (Nat.sub_le a b) ha)

lemma transfer_ok (s : Erc20) (caller to' : AccountId) (amount : Balance)
    (h : amount ≤ Mapping.get s._balances caller) :
    s.transfer caller to' amount =
      Except.ok
        ({ s with _balances :=
            (Mapping.insert
              (Mapping.insert s._balances caller (Mapping.get s._balances caller - amount))
              to' (wadd (Mapping.get s._balances to') amount)) },
         [⟨some caller, some to', amount⟩], true) := by
  simp [Erc20.transfer, Erc20._transfer, h]

lemma transfer_err (s : Erc20) (caller to' : AccountId) (amount : Balance)
    (h : Mapping.get s._balances caller < amount) :
    s.transfer caller to' amount = Except.error Err.InsufficientBalance := by
  have h' : ¬ amount ≤ Mapping.get s._balances caller := not_le.mpr h
  simp [Erc20.transfer, Erc20._transfer, h']

lemma mint_owner (s : Erc20) (amount : Balance) :
    s.mint s._owner amount =
      Except.ok
        ({ s with _total_supply := wadd s._total_supply amount,
                  _balances := (Mapping.insert s._balances s._owner
                    (wadd (Mapping.get s._balances s._owner) amount)) },
         [⟨none, some s._owner, amount⟩], true) := by
  simp [Erc20.mint, Erc20.only_allowed_caller, Erc20._mint]

lemma mint_not_owner (s : Erc20) (caller : AccountId) (amount : Balance)
    (h : caller ≠ s._owner) :
    s.mint caller amount = Except.error Err.NotAuthorized := by
  have h' : ¬ s._owner = caller := fun e => h e.symm
  simp [Erc20.mint, Erc20.only_allowed_caller, h']

lemma burn_owner_ok (s : Erc20) (amount : Balance)
    (h : amount ≤ Mapping.get s._balances s._owner) :
    s.burn s._owner amount =
      Except.ok
        ({ s with _total_supply := wsub s._total_supply amount,
                  _balances := (Mapping.insert s._balances s._owner
                    (Mapping.get s._balances s._owner - amount)) },
         [⟨some s._owner, none, amount⟩], true) := by
  simp [Erc20.burn, Erc20.only_allowed_caller, Erc20._burn, h]

lemma burn_owner_err (s : Erc20) (amount : Balance)
    (h : Mapping.get s._balances s._owner < amount) :
    s.burn s._owner amount = Except.error Err.InsufficientBalance := by
  have h' : ¬ amount ≤ Mapping.get s._balances s._owner := not_le.mpr h
  simp [Erc20.burn, Erc20.only_allowed_caller, Erc20._burn, h']

lemma burn_not_owner (s : Erc20) (caller : AccountId) (amount : Balance)
    (h : caller ≠ s._owner) :
    s.burn caller amount = Except.error Err.NotAuthorized := by
  have h' : ¬ s._owner = caller := fun e => h e.symm
  simp [Erc20.burn, Erc20.only_allowed_caller, h']

/-- C1: the claim says a self-transfer of an amount within the caller's
balance leaves the caller's balance unchanged while still emitting one event.
The code refutes it: from the constructor state where account 0 holds 1,
`transfer(0, 0, 1)` succeeds and emits one event, but sets the balance to 2 —
the credit uses the stale `to_balance` read before the debit, and the second
`insert` overwrites the first. -/
theorem C1_self_transfer_inflates_balance :
    cState.balance_of 0 = 1 ∧
    (runTransfer cState [] 0 0 1).2 = [⟨some 0, some 0, 1⟩] ∧
    (runTransfer cState [] 0 0 1).1.balance_of 0 = 2 :=
  ⟨rfl, rfl, rfl⟩

/-- C2: the claim says `total_supply == sum of balances` holds after the
constructor and is preserved by every successful operation.  The code refutes
preservation under transfer: the constructor state satisfies the invariant,
the self-transfer `transfer(0, 0, 1)` succeeds (it emits an event), and the
resulting state violates the invariant (`total_supply` is 1 while account 0
alone holds 2). -/
theorem C2_self_transfer_breaks_conservation :
    Erc20.supplyInvariant cState ∧
    (runTransfer cState [] 0 0 1).2 = [⟨some 0, some 0, 1⟩] ∧
    ¬ Erc20.supplyInvariant (runTransfer cState [] 0 0 1).1 := by
  have hpost : (runTransfer cState [] 0 0 1).1._balances
      = Mapping.insert (Mapping.insert (Mapping.insert Mapping.empty 0 1) 0 0) 0 2 := rfl
  have htot : (runTransfer cState [] 0 0 1).1._total_supply = 1 := rfl
  have hbal : ∀ a : AccountId,
      Mapping.get (runTransfer cState [] 0 0 1).1._balances a = if a = 0 then 2 else 0 := by
    intro a
    rw [hpost]
    by_cases h : a = 0 <;>
      simp [Mapping.get, Mapping.insert, Mapping.empty, h]
  refine ⟨⟨{0}, ?_, ?_⟩, rfl, ?_⟩
  · intro a ha
    have ha0 : a ≠ 0 := by simpa using ha
    simp [cState, Erc20.new, Mapping.get, Mapping.insert, Mapping.empty, ha0]
  · simp [cState, Erc20.new, Mapping.get, Mapping.insert, Mapping.empty]
  · rintro ⟨dom, hzero, hsum⟩
    by_cases h0 : (0 : AccountId) ∈ dom
    · have hle : Mapping.get (runTransfer cState [] 0 0 1).1._balances 0
          ≤ dom.sum (fun a => Mapping.get (runTransfer cState [] 0 0 1).1._balances a) :=
        Finset.single_le_sum (fun i _ => Nat.zero_le _) h0
      rw [← hsum, htot, hbal 0] at hle
      revert hle
      decide
    · have h := hzero 0 h0
      rw [hbal 0] at h
      revert h
      decide

/-- C3: a transfer of an amount strictly greater than the caller's balance
fails with InsufficientBalance, leaves the balances of the caller and of the
recipient exactly as before, and emits no event. -/
theorem C3_insufficient_transfer_reverts (s : Erc20) (log : List Transferred)
    (caller to' : AccountId) (amount : Balance)
    (h : s.balance_of caller < amount) :
    s.transfer caller to' amount = Except.error Err.InsufficientBalance ∧
    runTransfer s log caller to' amount = (s, log) ∧
    (runTransfer s log caller to' amount).1.balance_of caller = s.balance_of caller ∧
    (runTransfer s log caller to' amount).1.balance_of to' = s.balance_of to' := by
  have herr : s.transfer caller to' amount = Except.error Err.InsufficientBalance :=
    transfer_err s caller to' amount h
  have hrun : runTransfer s log caller to' amount = (s, log) := by
    simp [runTransfer, herr]
  exact ⟨herr, hrun, by rw [hrun], by rw [hrun]⟩

/-- C3 witness: concrete instance at the constructor state, amount 2 against
a balance of 1. -/
theorem C3_insufficient_transfer_reverts_witness :
    cState.balance_of 0 < 2 ∧
    (Erc20.transfer cState 0 1 2 = Except.error Err.InsufficientBalance ∧
     runTransfer cState [] 0 1 2 = (cState, []) ∧
     (runTransfer cState [] 0 1 2).1.balance_of 0 = cState.balance_of 0 ∧
     (runTransfer cState [] 0 1 2).1.balance_of 1 = cState.balance_of 1) :=
  ⟨by decide, C3_insufficient_transfer_reverts cState [] 0 1 2 (by decide)⟩

/-- C4: mint and burn invoked by any caller other than the owner fail with
NotAuthorized before touching state: every balance, the total supply, the
metadata and the event log are unchanged. -/
theorem C4_mint_burn_not_authorized (s : Erc20) (log : List Transferred)
    (caller a : AccountId) (amount : Balance) (h : caller ≠ s._owner) :
    s.mint caller amount = Except.error Err.NotAuthorized ∧
    s.burn caller amount = Except.error Err.NotAuthorized ∧
    runMint s log caller amount = (s, log) ∧
    runBurn s log caller amount = (s, log) ∧
    (runMint s log caller amount).1.balance_of a = s.balance_of a ∧
    (runMint s log caller amount).1.total_supply = s.total_supply ∧
    (runBurn s log caller amount).1.balance_of a = s.balance_of a ∧
    (runBurn s log caller amount).1.total_supply = s.total_supply := by
  have hm : s.mint caller amount = Except.error Err.NotAuthorized :=
    mint_not_owner s caller amount h
  have hb : s.burn caller amount = Except.error Err.NotAuthorized :=
    burn_not_owner s caller amount h
  have hrm : runMint s log caller amount = (s, log) := by simp [runMint, hm]
  have hrb : runBurn s log caller amount = (s, log) := by simp [runBurn, hb]
  exact ⟨hm, hb, hrm, hrb, by rw [hrm], by rw [hrm], by rw [hrb], by rw [hrb]⟩

/-- C4 witness: account 1 is not the owner of `cState` and its mint and burn
attempts revert. -/
theorem C4_mint_burn_not_authorized_witness :
    (1 : AccountId) ≠ cState._owner ∧
    (Erc20.mint cState 1 5 = Except.error Err.NotAuthorized ∧
     Erc20.burn cState 1 5 = Except.error Err.NotAuthorized ∧
     runMint cState [] 1 5 = (cState, []) ∧
     runBurn cState [] 1 5 = (cState, []) ∧
     (runMint cState [] 1 5).1.balance_of 7 = cState.balance_of 7 ∧
     (runMint cState [] 1 5).1.total_supply = cState.total_supply ∧
     (runBurn cState [] 1 5).1.balance_of 7 = cState.balance_of 7 ∧
     (runBurn cState [] 1 5).1.total_supply = cState.total_supply) :=
  ⟨by decide, C4_mint_burn_not_authorized cState [] 1 7 5 (by decide)⟩

/-- C5 counterexample: the claim quantifies over every state with
`balance_of(owner) >= amount`, but in `badState` (owner balance 5, stored
supply 0) `burn(5)` succeeds and the unguarded `total_supply -= amount`
wraps modulo `2^128` instead of decreasing by exactly the amount. -/
theorem C5_burn_supply_underflow_counterexample :
    5 ≤ badState.balance_of 0 ∧
    (runBurn badState [] 0 5).2 = [⟨some 0, none, 5⟩] ∧
    ¬ ((runBurn badState [] 0 5).1.total_supply + 5 = badState.total_supply) :=
  ⟨by decide, rfl, by decide⟩

/-- C5 amended: in every state whose stored supply is a `u128` value at least
`amount` (guaranteed whenever the conservation invariant holds), burn by the
owner behaves as claimed: with sufficient balance it decreases the supply and
the owner's balance by exactly `amount` and emits `{from: some owner, to:
none, value: amount}`; with insufficient balance it fails with
InsufficientBalance and reverts. -/
theorem C5_burn_by_owner (s : Erc20) (log : List Transferred) (amount : Balance)
    (hts : amount ≤ s.total_supply) (hlt : s.total_supply < U128MOD) :
    (amount ≤ s.balance_of s._owner →
      (runBurn s log s._owner amount).1.total_supply = s.total_supply - amount ∧
      (runBurn s log s._owner amount).1.balance_of s._owner
        = s.balance_of s._owner - amount ∧
      (runBurn s log s._owner amount).2 = log ++ [⟨some s._owner, none, amount⟩]) ∧
    (s.balance_of s._owner < amount →
      s.burn s._owner amount = Except.error Err.InsufficientBalance ∧
      runBurn s log s._owner amount = (s, log)) := by
  constructor
  · intro h
    have hok := burn_owner_ok s amount h
    have hw : wsub s._total_supply amount = s._total_supply - amount :=
      wsub_eq _ _ hts hlt
    refine ⟨?_, ?_, ?_⟩ <;>
      simp [runBurn, hok, Erc20.total_supply, Erc20.balance_of, Mapping.get,
        Mapping.insert, hw]
  · intro h
    have herr := burn_owner_err s amount h
    exact ⟨herr, by simp [runBurn, herr]⟩

/-- C5 witness: concrete success branch at `gState` (owner holds supply 5),
burning 3. -/
theorem C5_burn_by_owner_witness :
    3 ≤ gState.total_supply ∧ gState.total_supply < U128MOD ∧
    3 ≤ gState.balance_of 0 ∧
    (runBurn gState [] 0 3).1.total_supply = gState.total_supply - 3 :=
  ⟨by decide, by decide, by decide,
    ((C5_burn_by_owner gState [] 3 (by decide) (by decide)).1 (by decide)).1⟩

/-- C6 counterexample: the claim quantifies over every state, but from
`maxState` (supply `2^128 - 1`) the owner's `mint(1)` succeeds and the
unguarded `total_supply += amount` wraps to 0 instead of increasing by
exactly the amount. -/
theorem C6_mint_supply_overflow_counterexample :
    (runMint maxState [] 0 1).2 = [⟨none, some 0, 1⟩] ∧
    (runMint maxState [] 0 1).1.total_supply ≠ maxState.total_supply + 1 :=
  ⟨rfl, by decide⟩

/-- C6 amended: whenever neither the supply increment nor the caller-balance
increment overflows `u128`, mint by the owner succeeds, increases the supply
by exactly `amount`, credits exactly `amount` to the caller's own balance
(the operation takes no recipient: it always credits the caller), and emits
`{from: none, to: some caller, value: amount}`. -/
theorem C6_mint_by_owner (s : Erc20) (log : List Transferred) (amount : Balance)
    (h1 : s.total_supply + amount < U128MOD)
    (h2 : s.balance_of s._owner + amount < U128MOD) :
    (runMint s log s._owner amount).1.total_supply = s.total_supply + amount ∧
    (runMint s log s._owner amount).1.balance_of s._owner
      = s.balance_of s._owner + amount ∧
    (runMint s log s._owner amount).2 = log ++ [⟨none, some s._owner, amount⟩] := by
  have hok := mint_owner s amount
  have hw1 : wadd s._total_supply amount = s._total_supply + amount :=
    wadd_eq _ _ h1
  have hw2 : wadd (s._balances s._owner) amount = s._balances s._owner + amount :=
    wadd_eq _ _ h2
  refine ⟨?_, ?_, ?_⟩ <;>
    simp [runMint, hok, Erc20.total_supply, Erc20.balance_of, Mapping.get,
      Mapping.insert, hw1, hw2]

/-- C6 witness: concrete instance at the constructor state, minting 10. -/
theorem C6_mint_by_owner_witness :
    cState.total_supply + 10 < U128MOD ∧
    cState.balance_of 0 + 10 < U128MOD ∧
    (runMint cState [] 0 10).1.total_supply = cState.total_supply + 10 :=
  ⟨by decide, by decide, (C6_mint_by_owner cState [] 10 (by decide) (by decide)).1⟩

/-- C7: every successful mutating call appends exactly one event whose fields
match the operation — transfer `{some caller, some to, amount}`, mint
`{none, some caller, amount}`, burn `{some caller, none, amount}`, and the
constructor's initial assignment `{none, some creator, total}` — at the end
of the log, i.e. in operation-completion order. -/
theorem C7_event_correspondence (s : Erc20) (log : List Transferred)
    (caller to' : AccountId) (amount t : Balance) (nm sy : String) :
    (amount ≤ s.balance_of caller →
      (runTransfer s log caller to' amount).2
        = log ++ [⟨some caller, some to', amount⟩]) ∧
    (runMint s log s._owner amount).2 = log ++ [⟨none, some s._owner, amount⟩] ∧
    (amount ≤ s.balance_of s._owner →
      (runBurn s log s._owner amount).2 = log ++ [⟨some s._owner, none, amount⟩]) ∧
    (Erc20.new caller t nm sy).2 = [⟨none, some caller, t⟩] := by
  refine ⟨?_, ?_, ?_, rfl⟩
  · intro h
    simp [runTransfer, transfer_ok s caller to' amount h]
  · simp [runMint, mint_owner s amount]
  · intro h
    simp [runBurn, burn_owner_ok s amount h]

/-- C7 witness: concrete instance at `gState` for all four operations. -/
theorem C7_event_correspondence_witness :
    2 ≤ gState.balance_of 0 ∧
    (runTransfer gState [] 0 1 2).2 = [⟨some 0, some 1, 2⟩] ∧
    (runMint gState [] 0 2).2 = [⟨none, some 0, 2⟩] ∧
    (runBurn gState [] 0 2).2 = [⟨some 0, none, 2⟩] ∧
    (Erc20.new 0 7 "N" "S").2 = [⟨none, some 0, 7⟩] := by
  have hc := C7_event_correspondence gState [] 0 1 2 7 "N" "S"
  exact ⟨by decide, hc.1 (by decide), hc.2.1, hc.2.2.1 (by decide), hc.2.2.2⟩

/-- C8: the constructor `new(total_supply, name, symbol)` called by `caller`
makes the caller the owner, credits it the whole supply (every other account
reads 0), stores the supply and the metadata, and emits exactly the one
mint-style event `{none, some caller, total_supply}`. -/
theorem C8_constructor_state (caller : AccountId) (t : Balance) (nm sy : String)
    (a : AccountId) (ha : a ≠ caller) :
    (Erc20.new caller t nm sy).1._owner = caller ∧
    (Erc20.new caller t nm sy).1.balance_of caller = t ∧
    (Erc20.new caller t nm sy).1.balance_of a = 0 ∧
    (Erc20.new caller t nm sy).1.total_supply = t ∧
    (Erc20.new caller t nm sy).1.name = nm ∧
    (Erc20.new caller t nm sy).1.symbol = sy ∧
    (Erc20.new caller t nm sy).2 = [⟨none, some caller, t⟩] := by
  refine ⟨rfl, ?_, ?_, rfl, rfl, rfl, rfl⟩
  · simp [Erc20.new, Erc20.balance_of, Mapping.get, Mapping.insert]
  · simp [Erc20.new, Erc20.balance_of, Mapping.get, Mapping.insert, Mapping.empty, ha]

/-- C8 witness: the spec's concrete scenario `new(1000, "Polkadot", "DOT")`
by account 0, with account 7 as the other account. -/
theorem C8_constructor_state_witness :
    (7 : AccountId) ≠ 0 ∧
    ((Erc20.new 0 1000 "Polkadot" "DOT").1._owner = 0 ∧
     (Erc20.new 0 1000 "Polkadot" "DOT").1.balance_of 0 = 1000 ∧
     (Erc20.new 0 1000 "Polkadot" "DOT").1.balance_of 7 = 0 ∧
     (Erc20.new 0 1000 "Polkadot" "DOT").1.total_supply = 1000 ∧
     (Erc20.new 0 1000 "Polkadot" "DOT").1.name = "Polkadot" ∧
     (Erc20.new 0 1000 "Polkadot" "DOT").1.symbol = "DOT" ∧
     (Erc20.new 0 1000 "Polkadot" "DOT").2 = [⟨none, some 0, 1000⟩]) :=
  ⟨by decide, C8_constructor_state 0 1000 "Polkadot" "DOT" 7 (by decide)⟩

/-- C9: a successful transfer touches only the balance entries of the caller
and the recipient: every other account's balance, the total supply, the
owner, the name and the symbol are unchanged. -/
theorem C9_transfer_frame (s : Erc20) (log : List Transferred)
    (caller to' a : AccountId) (amount : Balance)
    (h : amount ≤ s.balance_of caller) (h1 : a ≠ caller) (h2 : a ≠ to') :
    (runTransfer s log caller to' amount).1.balance_of a = s.balance_of a ∧
    (runTransfer s log caller to' amount).1.total_supply = s.total_supply ∧
    (runTransfer s log caller to' amount).1._owner = s._owner ∧
    (runTransfer s log caller to' amount).1.name = s.name ∧
    (runTransfer s log caller to' amount).1.symbol = s.symbol := by
  have hok := transfer_ok s caller to' amount h
  refine ⟨?_, ?_, ?_, ?_, ?_⟩ <;>
    simp [runTransfer, hok, Erc20.balance_of, Mapping.get, Mapping.insert, h1, h2,
      Erc20.total_supply, Erc20.name, Erc20.symbol]

/-- C9 witness: concrete instance at `gState`, transferring 2 from 0 to 1
with 7 as the untouched account. -/
theorem C9_transfer_frame_witness :
    2 ≤ gState.balance_of 0 ∧ (7 : AccountId) ≠ 0 ∧ (7 : AccountId) ≠ 1 ∧
    ((runTransfer gState [] 0 1 2).1.balance_of 7 = gState.balance_of 7 ∧
     (runTransfer gState [] 0 1 2).1.total_supply = gState.total_supply ∧
     (runTransfer gState [] 0 1 2).1._owner = gState._owner ∧
     (runTransfer gState [] 0 1 2).1.name = gState.name ∧
     (runTransfer gState [] 0 1 2).1.symbol = gState.symbol) :=
  ⟨by decide, by decide, by decide,
    C9_transfer_frame gState [] 0 1 7 2 (by decide) (by decide) (by decide)⟩

/-- C10: transfer performs no authorization check: for every caller —
the owner or not — and every recipient, it succeeds and returns `true`
whenever the caller's balance covers the amount. -/
theorem C10_transfer_needs_no_authorization (s : Erc20) (caller to' : AccountId)
    (amount : Balance) (h : amount ≤ s.balance_of caller) :
    s.transfer caller to' amount =
      Except.ok
        ({ s with _balances :=
            (Mapping.insert
              (Mapping.insert s._balances caller (s.balance_of caller - amount))
              to' (wadd (s.balance_of to') amount)) },
         [⟨some caller, some to', amount⟩], true) :=
  transfer_ok s caller to' amount h

/-- C10 witness: in `hState` the non-owner account 1 holds the supply and
successfully transfers 4 to the owner. -/
theorem C10_transfer_needs_no_authorization_witness :
    4 ≤ hState.balance_of 1 ∧ (1 : AccountId) ≠ hState._owner ∧
    Erc20.transfer hState 1 0 4 =
      Except.ok
        ({ hState with _balances :=
            (Mapping.insert (Mapping.insert hState._balances 1 (hState.balance_of 1 - 4))
              0 (wadd (hState.balance_of 0) 4)) },
         [⟨some 1, some 0, 4⟩], true) :=
  ⟨by decide, by decide, C10_transfer_needs_no_authorization hState 1 0 4 (by decide)⟩

end Erc20Spec
